import Mathlib

/-!
Verification of the APIAquaMind MQTT control core.

This file gives a shallow embedding of the parts of the repository that
drive the water-tank control loop:

* `app/services/mqtt_command_sender.py` — command validation and dispatch,
* `app/routes/routes_mqtt.py` — the device registry and the single-command
  entry point,
* `app/services/mqtt_message_handler.py` — water-level classification and
  the water-level message handler,
* `app/core/mqtt_data_processor.py` — persistence, actuation and
  notification logic (including the dummy-data fallback path),
* `app/core/device_monitor.py` — the poll-cycle diff step and the alert
  threshold update.

Machine floats are modelled as rationals; Python dictionaries as
association lists or as functions to `Option`; fallible Python code
(exceptions) as `Except` or as explicit effect lists.  Side effects
(MQTT publishes, node-status writes, notification inserts) are modelled
as values appended to effect lists, so that each theorem can count
exactly which effects a code path performs.
-/

namespace AquaMind

/-- State of the MQTT client as seen by `MQTTCommandSender`: the
`is_connected` flag, and whether a call to `publish_command` succeeds
(hand-off to the transport). -/
structure MQTTClient where
  is_connected : Bool
  publish_ok : Bool
deriving DecidableEq, Repr

/-- ASCII uppercasing of a string, the model of the Python method
`str.upper` on the command strings of this repository (which are ASCII). -/
def py_toUpper (s : String) : String :=
  String.mk (s.data.map (fun c => if 97 ≤ c.toNat ∧ c.toNat ≤ 122 then Char.ofNat (c.toNat - 32) else c))

/-- `MQTTCommandSender.validate_command` from
`app/services/mqtt_command_sender.py`: a falsy (empty) command is
rejected, otherwise the command is uppercased and checked against the
static whitelist `["ON", "OFF", "OPEN", "CLOSE"]`. -/
def validate_command (command : String) : Bool :=
  if command = "" then false
  else ["ON", "OFF", "OPEN", "CLOSE"].contains (py_toUpper command)

/-- `MQTTCommandSender.send_command`: returns `false` if the client is
absent, disconnected, or the command fails `validate_command`; otherwise
calls `publish_command` on the client.  The second component records the
`(topic, command)` pairs handed to `publish_command` (the transport). -/
def send_command (client : Option MQTTClient) (topic command : String) :
    Bool × List (String × String) :=
  match client with
  | none => (false, [])
  | some c =>
    if c.is_connected = false then (false, [])
    else if validate_command command = false then (false, [])
    else (c.publish_ok, [(topic, command)])

/-- `MQTTCommandSender.send_gate_command`: fixes the topic
`control/compuerta` and delegates to `send_command`. -/
def send_gate_command (client : Option MQTTClient) (command : String) :
    Bool × List (String × String) :=
  send_command client "control/compuerta" command

/-- The static `DEVICE_MAPPING` of `validate_device_command` in
`app/routes/routes_mqtt.py`: device id ↦ (topic, allowed commands). -/
def device_mapping : List (String × String × List String) :=
  [("valve1", "control/valvula1", ["ON", "OFF"]),
   ("valve2", "control/valvula2", ["ON", "OFF"]),
   ("gate", "control/compuerta", ["ABRIR", "CERRAR"]),
   ("relay1", "control/releb1", ["ON", "OFF"]),
   ("relay2", "control/releb2", ["ON", "OFF"])]

/-- Lookup in an association list by key, with decidable equality on the
keys (Python dictionary access). -/
def lookupKey {V : Type} (k : String) : List (String × V) → Option V
  | [] => none
  | (k', v) :: rest => if k' = k then some v else lookupKey k rest

/-- `validate_device_command` from `app/routes/routes_mqtt.py`: unknown
device ids are rejected; a command is uppercased and checked against the
valid commands of the device; on success the topic of the device is
returned. -/
def validate_device_command (device command : String) : Option String :=
  match lookupKey device device_mapping with
  | none => none
  | some (topic, cmds) => if cmds.contains (py_toUpper command) then some topic else none

/-- Outcome of the `/mqtt/control` single-command entry point: a
structured rejection (HTTP 400), a transport failure (HTTP 500), or a
success response (HTTP 200). -/
inductive CommandResponse where
  | rejected
  | sendFailed
  | sent
deriving DecidableEq, Repr

/-- `handle_single_command` from `app/routes/routes_mqtt.py`: checks the
presence of `device` and `command`, runs `validate_device_command`, and
only on successful validation calls `send_command` on the topic of the
device.  The second component records every `(topic, command)` pair that
reached the transport via `publish_command`. -/
def handle_single_command (client : Option MQTTClient) (device command : String) :
    CommandResponse × List (String × String) :=
  if device = "" then (CommandResponse.rejected, [])
  else if command = "" then (CommandResponse.rejected, [])
  else
    match validate_device_command device command with
    | none => (CommandResponse.rejected, [])
    | some topic =>
      let r := send_command client topic command
      (if r.1 then CommandResponse.sent else CommandResponse.sendFailed, r.2)

/-- Decidable equality for `Except`, needed to evaluate classification
results on concrete inputs. -/
def exceptDecEq {ε α : Type} [DecidableEq ε] [DecidableEq α] : DecidableEq (Except ε α)
  | Except.error e, Except.error f =>
    if h : e = f then isTrue (by rw [h]) else isFalse (by intro hh; injection hh; contradiction)
  | Except.error _, Except.ok _ => isFalse (by intro hh; exact Except.noConfusion hh)
  | Except.ok _, Except.error _ => isFalse (by intro hh; exact Except.noConfusion hh)
  | Except.ok a, Except.ok b =>
    if h : a = b then isTrue (by rw [h]) else isFalse (by intro hh; injection hh; contradiction)

instance {ε α : Type} [DecidableEq ε] [DecidableEq α] : DecidableEq (Except ε α) := exceptDecEq

/-- `float(config.get("valor", 0))` over the result of
`ConfiguracionCRUD.obtener_valor_configuracion`: a configuration store is
modelled as a partial map from configuration name to the parsed numeric
value; a missing entry defaults to `0` exactly as in
`MQTTMessageHandler.determine_water_level_status`. -/
def getConfig (cfg : String → Option ℚ) (name : String) : ℚ :=
  (cfg name).getD 0

/-- A configuration store holding the four values read by
`determine_water_level_status`. -/
def mkCfg (altura alto normal bajo : ℚ) : String → Option ℚ := fun name =>
  if name = "AlturaContenedor" then some altura
  else if name = "umbral_alto_nivel" then some alto
  else if name = "umbral_normal_nivel" then some normal
  else if name = "umbral_bajo_nivel" then some bajo
  else none

/-- The configuration used by the spec examples:
tank height 100, thresholds high 80 / normal 50 / low 20. -/
def fixedCfg : String → Option ℚ := mkCfg 100 80 50 20

/-- A configuration store whose tank height is 0 (the default used by
the code when the `AlturaContenedor` entry is absent). -/
def zeroCfg : String → Option ℚ := mkCfg 0 80 50 20

/-- `MQTTMessageHandler.determine_water_level_status` from
`app/services/mqtt_message_handler.py`: reads the tank height and the
three thresholds from configuration (missing values default to 0),
computes `nivel_agua = 100 - distancia / altura * 100`, and classifies.
A zero tank height makes the Python division raise `ZeroDivisionError`,
modelled as `Except.error ()`. The branch chain is exactly that of the
source: `alto ≤ nivel → ALTO`, `normal ≤ nivel → NORMAL`,
`nivel ≤ bajo → BAJO`, otherwise `MUY_BAJO`; a true `desnivel` flag
short-circuits to `LLENO`. -/
def determine_water_level_status (cfg : String → Option ℚ) (distancia : ℚ)
    (desnivel : Bool) : Except Unit (String × ℚ) :=
  let altura_tanque := getConfig cfg "AlturaContenedor"
  let umbral_alto := getConfig cfg "umbral_alto_nivel"
  let umbral_normal := getConfig cfg "umbral_normal_nivel"
  let umbral_bajo := getConfig cfg "umbral_bajo_nivel"
  if altura_tanque = 0 then Except.error ()
  else
    let nivel_agua := 100 - distancia / altura_tanque * 100
    if desnivel = false then
      if umbral_alto ≤ nivel_agua then Except.ok ("ALTO", nivel_agua)
      else if umbral_normal ≤ nivel_agua then Except.ok ("NORMAL", nivel_agua)
      else if nivel_agua ≤ umbral_bajo then Except.ok ("BAJO", nivel_agua)
      else Except.ok ("MUY_BAJO", nivel_agua)
    else Except.ok ("LLENO", nivel_agua)

/-- A decoded `sensor/nivelAgua` payload after the type checks of
`MQTTMessageHandler.handle_water_level` (all four fields present and of
the right type). -/
structure WaterPayload where
  distancia : ℚ
  desnivel : Bool
  bomba : Bool
  compuerta : Bool
deriving DecidableEq, Repr

/-- The `water_data` dictionary assembled by the water-level paths of the
repository.  Fields other than `nivel_estado` are wrapped in `Option`
because downstream code accesses them with `dict.get`, which may yield
`None`. -/
structure WaterData where
  distancia : Option ℚ
  desnivel : Option Bool
  bomba : Option Bool
  compuerta : Option Bool
  nivel_estado : String
  porcentaje_agua : Option ℚ
deriving DecidableEq, Repr

/-- A side effect performed by
`MQTTDataProcessor.actions_for_water_level_data`: a gate command
attempt (`_send_gate_command`), a gate node-status write
(`_update_gate_node_status`), or a notification insert
(`NotificacionCRUD.crear_notificacion`, with its two text fields and the
percentage interpolated into the first one). -/
inductive Action where
  | gateCommand (cmd : String)
  | nodeStatus (status : Nat)
  | notifInsert (text mensaje : String) (porcentaje : Option ℚ)
deriving DecidableEq, Repr

/-- `MQTTDataProcessor.actions_for_water_level_data` from
`app/core/mqtt_data_processor.py`.  `lastState` is the value of
`last_nivel_data[0].get("data", {}).get("nivel_estado")`, `none` when no
previous reading was passed or found.  Open branch when the state is
BAJO or MUY_BAJO; otherwise close branch when `desnivel is False`;
otherwise nothing.  Inside a branch a notification is inserted exactly
when the previous state differs from the current one (the source
condition `last != current or last is None`). -/
def actions_for_water_level_data (water : WaterData) (lastState : Option String) :
    List Action :=
  if water.nivel_estado = "BAJO" ∨ water.nivel_estado = "MUY_BAJO" then
    [Action.gateCommand "ABRIR", Action.nodeStatus 1] ++
      (if lastState ≠ some water.nivel_estado then
        [Action.notifInsert "Nivel de agua bajo" "Compuerta abierta por nivel de agua bajo"
          water.porcentaje_agua]
      else [])
  else if water.desnivel = some false then
    [Action.gateCommand "CERRAR", Action.nodeStatus 0] ++
      (if lastState ≠ some water.nivel_estado then
        [Action.notifInsert "Nivel de agua alto" "Compuerta cerrada por nivel de agua alto"
          water.porcentaje_agua]
      else [])
  else []

/-- `MQTTDataProcessor.save_water_level_data`: fetches the last persisted
reading (`obtener_ultimo_nivel_agua`), inserts the new one
(`crear_nivel_agua`), and — only when the insert reports success
(status 201, the `persist_ok` flag) — runs
`actions_for_water_level_data` against the previous persisted state.
The database of readings is modelled as a list, most recent first;
returns the new database and the performed actions. -/
def save_water_level_data (db : List WaterData) (water : WaterData) (persist_ok : Bool) :
    List WaterData × List Action :=
  let last := db.head?
  if persist_ok then
    (water :: db, actions_for_water_level_data water (last.map (fun w => w.nivel_estado)))
  else (db, [])

/-- The body of `MQTTDataProcessor.process_dummy_water_level_data` in the
MQTT-unavailable branch: persists the generated dummy reading through
`save_water_level_data` (which already runs the actions step on
success), and then calls `actions_for_water_level_data` a second time,
with `None` as the previous data. -/
def process_dummy_water_level_data (db : List WaterData) (dummy : WaterData)
    (persist_ok : Bool) : List WaterData × List Action :=
  let r := save_water_level_data db dummy persist_ok
  (r.1, r.2 ++ actions_for_water_level_data dummy none)

/-- `MQTTMessageHandler.handle_water_level` for a successfully decoded
payload: classification may raise (division by zero on a zero tank
height), which the handler catches — nothing is persisted and no
exception propagates (the function is total).  On success the reading is
fed to `save_water_level_data`. -/
def handle_water_level (cfg : String → Option ℚ) (db : List WaterData)
    (p : WaterPayload) (persist_ok : Bool) : List WaterData × List Action :=
  match determine_water_level_status cfg p.distancia p.desnivel with
  | Except.error _ => (db, [])
  | Except.ok (estado, pct) =>
    save_water_level_data db
      { distancia := some p.distancia, desnivel := some p.desnivel, bomba := some p.bomba,
        compuerta := some p.compuerta, nivel_estado := estado, porcentaje_agua := some pct }
      persist_ok

/-- Recognizer for gate command dispatch effects. -/
def isGateDispatch : Action → Bool
  | Action.gateCommand _ => true
  | _ => false

/-- Recognizer for notification insert effects. -/
def isNotifInsert : Action → Bool
  | Action.notifInsert _ _ _ => true
  | _ => false

/-- Number of gate command dispatch attempts in an effect list. -/
def countGate (acts : List Action) : Nat := acts.countP isGateDispatch

/-- Number of notification inserts in an effect list. -/
def countNotif (acts : List Action) : Nat := acts.countP isNotifInsert

/-- A state-change event recorded by `DeviceMonitor._handle_state_change`
(the `evento_data` handed to `EventosCRUD.crear_evento`). -/
structure StateChangeEvent (V : Type) where
  key : String
  old_state : V
  new_state : V
deriving DecidableEq, Repr

/-- Python dictionary assignment `d[k] = v` on an association list:
replaces the value of an existing key, appends a fresh key at the end. -/
def updateAssoc {V : Type} (cache : List (String × V)) (k : String) (v : V) :
    List (String × V) :=
  match cache with
  | [] => [(k, v)]
  | (k', v') :: rest => if k' = k then (k, v) :: rest else (k', v') :: updateAssoc rest k v

/-- `DeviceMonitor._check_device_states` from
`app/core/device_monitor.py`: iterates over the freshly polled
`(device_key, state)` pairs; for a key already cached whose polled value
differs from the cached one, records one state-change event
(`_handle_state_change`); in every case the cache entry is then set to
the polled value.  Returns the final cache and the recorded events. -/
def check_device_states {V : Type} [DecidableEq V] :
    List (String × V) → List (String × V) → List (String × V) × List (StateChangeEvent V)
  | cache, [] => (cache, [])
  | cache, (k, v) :: rest =>
    let evs : List (StateChangeEvent V) :=
      match lookupKey k cache with
      | some old => if v ≠ old then [⟨k, old, v⟩] else []
      | none => []
    let r := check_device_states (updateAssoc cache k v) rest
    (r.1, evs ++ r.2)

/-- Number of recorded state-change events concerning a given device key. -/
def countEventsFor {V : Type} (k : String) (evs : List (StateChangeEvent V)) : Nat :=
  evs.countP (fun e => decide (e.key = k))

/-- One entry of the `alert_thresholds` dictionary of `DeviceMonitor`:
a nested dictionary with optional `min`, `max` and `timeout_minutes`
fields. -/
structure AlertThreshold where
  min : Option ℚ
  max : Option ℚ
  timeout_minutes : Option ℚ
deriving DecidableEq, Repr

/-- The initial `alert_thresholds` map set in `DeviceMonitor.__init__`. -/
def default_alert_thresholds : List (String × AlertThreshold) :=
  [("flow_sensor", { min := some 0, max := some 100, timeout_minutes := none }),
   ("valve_status", { min := none, max := none, timeout_minutes := some 30 }),
   ("relay_status", { min := none, max := none, timeout_minutes := some 30 })]

/-- `DeviceMonitor.update_alert_thresholds`: Python
`self.alert_thresholds.update(new_thresholds)` — every key of the update
map is assigned into the current map, all other keys are untouched. -/
def update_alert_thresholds (current upd : List (String × AlertThreshold)) :
    List (String × AlertThreshold) :=
  upd.foldl (fun acc kv => updateAssoc acc kv.1 kv.2) current

/-- The BAJO scenario of
`MQTTDataProcessor.generate_dummy_water_level_data` (scenario 4), at a
representative distance; dummy readings carry no `porcentaje_agua`
field, hence `none`. -/
def dummyBajo : WaterData :=
  { distancia := some 30, desnivel := some false, bomba := some false,
    compuerta := some false, nivel_estado := "BAJO", porcentaje_agua := none }

/-- A persisted NORMAL reading, used as the previous state in the
notification theorems. -/
def prevNormal : WaterData :=
  { distancia := some 50, desnivel := some false, bomba := some false,
    compuerta := some false, nivel_estado := "NORMAL", porcentaje_agua := some 50 }

/-- A reading classified LLENO (desnivel flag set), which takes neither
actuation branch of `actions_for_water_level_data`. -/
def readingLleno : WaterData :=
  { distancia := some 5, desnivel := some true, bomba := some true,
    compuerta := some true, nivel_estado := "LLENO", porcentaje_agua := some 95 }

lemma actions_open_eq (w : WaterData) (last : Option String)
    (h1 : w.nivel_estado = "BAJO" ∨ w.nivel_estado = "MUY_BAJO") :
    actions_for_water_level_data w last =
      [Action.gateCommand "ABRIR", Action.nodeStatus 1] ++
        (if last ≠ some w.nivel_estado then
          [Action.notifInsert "Nivel de agua bajo" "Compuerta abierta por nivel de agua bajo"
            w.porcentaje_agua]
        else []) := by
  unfold actions_for_water_level_data
  rw [if_pos h1]

lemma actions_close_eq (w : WaterData) (last : Option String)
    (h1 : ¬(w.nivel_estado = "BAJO" ∨ w.nivel_estado = "MUY_BAJO"))
    (h2 : w.desnivel = some false) :
    actions_for_water_level_data w last =
      [Action.gateCommand "CERRAR", Action.nodeStatus 0] ++
        (if last ≠ some w.nivel_estado then
          [Action.notifInsert "Nivel de agua alto" "Compuerta cerrada por nivel de agua alto"
            w.porcentaje_agua]
        else []) := by
  unfold actions_for_water_level_data
  rw [if_neg h1, if_pos h2]

lemma actions_skip_eq (w : WaterData) (last : Option String)
    (h1 : ¬(w.nivel_estado = "BAJO" ∨ w.nivel_estado = "MUY_BAJO"))
    (h2 : ¬w.desnivel = some false) :
    actions_for_water_level_data w last = [] := by
  unfold actions_for_water_level_data
  rw [if_neg h1, if_neg h2]

lemma countGate_actions (w : WaterData) (last : Option String)
    (h : w.nivel_estado = "BAJO" ∨ w.nivel_estado = "MUY_BAJO" ∨ w.desnivel = some false) :
    countGate (actions_for_water_level_data w last) = 1 := by
  by_cases h1 : w.nivel_estado = "BAJO" ∨ w.nivel_estado = "MUY_BAJO"
  · rw [actions_open_eq w last h1]
    unfold countGate
    split <;> simp [isGateDispatch]
  · have h2 : w.desnivel = some false := by tauto
    rw [actions_close_eq w last h1 h2]
    unfold countGate
    split <;> simp [isGateDispatch]

lemma countNotif_actions (w : WaterData) (last : Option String) :
    countNotif (actions_for_water_level_data w last) =
      if (w.nivel_estado = "BAJO" ∨ w.nivel_estado = "MUY_BAJO" ∨ w.desnivel = some false) ∧
          last ≠ some w.nivel_estado then 1 else 0 := by
  by_cases h1 : w.nivel_estado = "BAJO" ∨ w.nivel_estado = "MUY_BAJO"
  · have h3 : w.nivel_estado = "BAJO" ∨ w.nivel_estado = "MUY_BAJO" ∨ w.desnivel = some false := by
      tauto
    rw [actions_open_eq w last h1]
    by_cases hl : last = some w.nivel_estado <;>
      simp [hl, h3, countNotif, isNotifInsert]
  · by_cases h2 : w.desnivel = some false
    · have h3 : w.nivel_estado = "BAJO" ∨ w.nivel_estado = "MUY_BAJO" ∨
          w.desnivel = some false := by tauto
      rw [actions_close_eq w last h1 h2]
      by_cases hl : last = some w.nivel_estado <;>
        simp [hl, h3, countNotif, isNotifInsert]
    · have h3 : ¬(w.nivel_estado = "BAJO" ∨ w.nivel_estado = "MUY_BAJO" ∨
          w.desnivel = some false) := by tauto
      rw [actions_skip_eq w last h1 h2]
      simp [h3, countNotif]

lemma determine_mkCfg_ok (h a n b d : ℚ) (flag : Bool) (hh : h ≠ 0) :
    ∃ s, determine_water_level_status (mkCfg h a n b) d flag =
      Except.ok (s, 100 - d / h * 100) := by
  have e1 : getConfig (mkCfg h a n b) "AlturaContenedor" = h := by simp [getConfig, mkCfg]
  have e2 : getConfig (mkCfg h a n b) "umbral_alto_nivel" = a := by simp [getConfig, mkCfg]
  have e3 : getConfig (mkCfg h a n b) "umbral_normal_nivel" = n := by simp [getConfig, mkCfg]
  have e4 : getConfig (mkCfg h a n b) "umbral_bajo_nivel" = b := by simp [getConfig, mkCfg]
  simp only [determine_water_level_status, e1, e2, e3, e4]
  rw [if_neg hh]
  split
  · split
    · exact ⟨_, rfl⟩
    · split
      · exact ⟨_, rfl⟩
      · split
        · exact ⟨_, rfl⟩
        · exact ⟨_, rfl⟩
  · exact ⟨_, rfl⟩

lemma lookupKey_updateAssoc_self {V : Type} (c : List (String × V)) (k : String) (v : V) :
    lookupKey k (updateAssoc c k v) = some v := by
  induction c with
  | nil => simp [updateAssoc, lookupKey]
  | cons hd tl ih =>
    obtain ⟨k', v'⟩ := hd
    by_cases hk : k' = k
    · subst hk
      simp [updateAssoc, lookupKey]
    · simp [updateAssoc, lookupKey, hk, ih]

lemma lookupKey_updateAssoc_other {V : Type} (c : List (String × V)) (k k' : String) (v : V)
    (hne : k' ≠ k) :
    lookupKey k' (updateAssoc c k v) = lookupKey k' c := by
  induction c with
  | nil => simp [updateAssoc, lookupKey, Ne.symm hne]
  | cons hd tl ih =>
    obtain ⟨k₀, v₀⟩ := hd
    by_cases hk : k₀ = k
    · subst hk
      simp [updateAssoc, lookupKey, Ne.symm hne]
    · simp [updateAssoc, lookupKey, hk, ih]

lemma lookupKey_eq_none_of_not_mem {V : Type} (l : List (String × V)) (k : String)
    (h : k ∉ l.map Prod.fst) : lookupKey k l = none := by
  induction l with
  | nil => rfl
  | cons hd tl ih =>
    obtain ⟨k₀, v₀⟩ := hd
    simp only [List.map_cons, List.mem_cons, not_or] at h
    obtain ⟨h1, h2⟩ := h
    simp [lookupKey, Ne.symm h1, ih h2]

lemma countEventsFor_append {V : Type} (k : String) (l₁ l₂ : List (StateChangeEvent V)) :
    countEventsFor k (l₁ ++ l₂) = countEventsFor k l₁ + countEventsFor k l₂ := by
  simp [countEventsFor, List.countP_append]

lemma check_device_states_untouched {V : Type} [DecidableEq V]
    (polled : List (String × V)) (cache : List (String × V)) (k : String)
    (hk : k ∉ polled.map Prod.fst) :
    lookupKey k (check_device_states cache polled).1 = lookupKey k cache ∧
    countEventsFor k (check_device_states cache polled).2 = 0 := by
  induction polled generalizing cache with
  | nil => exact ⟨rfl, rfl⟩
  | cons hd rest ih =>
    obtain ⟨k₀, v₀⟩ := hd
    simp only [List.map_cons, List.mem_cons, not_or] at hk
    obtain ⟨hk₀, hkrest⟩ := hk
    have ihr := ih (updateAssoc cache k₀ v₀) hkrest
    simp only [check_device_states]
    constructor
    · rw [ihr.1, lookupKey_updateAssoc_other cache k₀ k v₀ hk₀]
    · rw [countEventsFor_append, ihr.2]
      have hevs : ∀ hcase : Option V,
          countEventsFor k (match hcase with
            | some old => if v₀ ≠ old then [(⟨k₀, old, v₀⟩ : StateChangeEvent V)] else []
            | none => []) = 0 := by
        intro hcase
        cases hcase with
        | none => rfl
        | some old =>
          split <;> simp [countEventsFor, Ne.symm hk₀]
      rw [hevs (lookupKey k₀ cache)]

lemma foldl_updateAssoc_not_mem {V : Type} (upd : List (String × V))
    (current : List (String × V)) (k : String) (h : lookupKey k upd = none) :
    lookupKey k (upd.foldl (fun acc kv => updateAssoc acc kv.1 kv.2) current) =
      lookupKey k current := by
  induction upd generalizing current with
  | nil => rfl
  | cons hd rest ih =>
    obtain ⟨k₀, v₀⟩ := hd
    by_cases hk : k₀ = k
    · simp [lookupKey, hk] at h
    · simp only [lookupKey, if_neg hk] at h
      simp only [List.foldl_cons]
      rw [ih (updateAssoc current k₀ v₀) h,
        lookupKey_updateAssoc_other current k₀ k v₀ (Ne.symm hk)]

lemma foldl_updateAssoc_mem {V : Type} (upd : List (String × V))
    (current : List (String × V)) (k : String) (v : V)
    (hnodup : (upd.map Prod.fst).Nodup) (h : lookupKey k upd = some v) :
    lookupKey k (upd.foldl (fun acc kv => updateAssoc acc kv.1 kv.2) current) = some v := by
  induction upd generalizing current with
  | nil => simp [lookupKey] at h
  | cons hd rest ih =>
    obtain ⟨k₀, v₀⟩ := hd
    simp only [List.map_cons, List.nodup_cons] at hnodup
    obtain ⟨hk₀, hrest⟩ := hnodup
    by_cases hk : k₀ = k
    · subst hk
      simp only [lookupKey, eq_self_iff_true, if_true, Option.some.injEq] at h
      subst h
      simp only [List.foldl_cons]
      rw [foldl_updateAssoc_not_mem rest (updateAssoc current k₀ v₀) k₀
        (lookupKey_eq_none_of_not_mem rest k₀ hk₀)]
      exact lookupKey_updateAssoc_self current k₀ v₀
    · simp only [lookupKey, if_neg hk] at h
      simp only [List.foldl_cons]
      exact ih (updateAssoc current k₀ v₀) hrest h

/-- C1: the gate commands ABRIR and CERRAR, sent on `control/compuerta`
through `send_command` with a connected client, are rejected by
`validate_command` (whose whitelist is ON/OFF/OPEN/CLOSE), so
`send_command` returns false and nothing reaches `publish_command` —
contradicting the claim that they pass validation and are delegated to
publish.  The device registry of the routing layer declares ABRIR and
CERRAR valid for the gate, so the dispatch path contradicts itself; the
theorem evaluates the code at the failing input. -/
theorem sendCommand_gate_rejects_abrir_cerrar :
    send_command (some ⟨true, true⟩) "control/compuerta" "ABRIR" = (false, []) ∧
    send_command (some ⟨true, true⟩) "control/compuerta" "CERRAR" = (false, []) ∧
    validate_command "ABRIR" = false ∧ validate_command "CERRAR" = false ∧
    validate_device_command "gate" "ABRIR" = some "control/compuerta" := by
  decide

/-- C6: the single-command entry point rejects `(valve9, ON)` (unknown
device) and `(gate, ON)` (command not in the allowed set of the gate)
with a structured rejection, and in both cases no call reaches the
transport, whatever the state of the MQTT client. -/
theorem handleSingleCommand_rejects_invalid (client : Option MQTTClient) :
    handle_single_command client "valve9" "ON" = (CommandResponse.rejected, []) ∧
    handle_single_command client "gate" "ON" = (CommandResponse.rejected, []) := by
  constructor <;> rfl

/-- C2 counterexample: with tank height 100 and thresholds
high 80 / normal 50 / low 20, a reading at percentage 15 (distance 85)
classifies as BAJO (the branch `nivel ≤ umbral_bajo`), not MUY_BAJO as
the claim states. -/
theorem classification_at_15_is_BAJO :
    determine_water_level_status fixedCfg 85 false = Except.ok ("BAJO", 15) ∧
    determine_water_level_status fixedCfg 85 false ≠ Except.ok ("MUY_BAJO", 15) := by
  have h : determine_water_level_status fixedCfg 85 false = Except.ok ("BAJO", 15) := by
    simp [determine_water_level_status, fixedCfg, mkCfg, getConfig]
    norm_num
  refine ⟨h, ?_⟩
  rw [h]
  intro hc
  injection hc with hc'
  exact absurd (congrArg Prod.fst hc') (by decide)

/-- C2 amended: with thresholds high 80 / normal 50 / low 20 and tank
height 100, percentage 90 classifies as ALTO, 60 as NORMAL, 15 as BAJO
(not MUY_BAJO), 20 as BAJO; and for every percentage a true desnivel
flag classifies as LLENO. -/
theorem classification_examples :
    determine_water_level_status fixedCfg 10 false = Except.ok ("ALTO", 90) ∧
    determine_water_level_status fixedCfg 40 false = Except.ok ("NORMAL", 60) ∧
    determine_water_level_status fixedCfg 85 false = Except.ok ("BAJO", 15) ∧
    determine_water_level_status fixedCfg 80 false = Except.ok ("BAJO", 20) ∧
    ∀ d : ℚ, determine_water_level_status fixedCfg d true = Except.ok ("LLENO", 100 - d / 100 * 100) := by
  refine ⟨?_, ?_, ?_, ?_, fun d => ?_⟩ <;>
    simp [determine_water_level_status, fixedCfg, mkCfg, getConfig] <;> norm_num

/-- C6 witness: the rejections hold in particular for a connected
client. -/
theorem handleSingleCommand_rejects_invalid_witness :
    handle_single_command (some ⟨true, true⟩) "valve9" "ON" = (CommandResponse.rejected, []) ∧
    handle_single_command (some ⟨true, true⟩) "gate" "ON" = (CommandResponse.rejected, []) :=
  handleSingleCommand_rejects_invalid (some ⟨true, true⟩)

/-- C2 amended witness: a desnivel reading at distance 35 classifies as
LLENO. -/
theorem classification_examples_witness :
    determine_water_level_status fixedCfg 35 true = Except.ok ("LLENO", 100 - 35 / 100 * 100) :=
  classification_examples.2.2.2.2 35

/-- C3 counterexample: for the dummy BAJO reading on a fallback tick
with successful persistence, the dummy path dispatches the gate command
twice (once inside `save_water_level_data`, once in the extra direct
call of `process_dummy_water_level_data`), while the real path for the
same data dispatches it once. -/
theorem dummy_tick_double_actuation :
    countGate (process_dummy_water_level_data [] dummyBajo true).2 = 2 ∧
    countGate (save_water_level_data [] dummyBajo true).2 = 1 := by
  decide

/-- C3 amended: on a fallback tick whose synthetic reading takes an
actuation branch and whose persistence succeeds, the actuate-and-notify
path runs twice — the gate command is dispatched twice, versus once for
a real reading with the same data — and a notification is always
created by the second, dedup-free pass. -/
theorem dummy_tick_actions (db : List WaterData) (w : WaterData)
    (h : w.nivel_estado = "BAJO" ∨ w.nivel_estado = "MUY_BAJO" ∨ w.desnivel = some false) :
    countGate (process_dummy_water_level_data db w true).2 = 2 ∧
    countGate (save_water_level_data db w true).2 = 1 ∧
    1 ≤ countNotif (process_dummy_water_level_data db w true).2 := by
  have hs : (save_water_level_data db w true).2 =
      actions_for_water_level_data w ((db.head?).map (fun p => p.nivel_estado)) := by
    simp [save_water_level_data]
  have hp : (process_dummy_water_level_data db w true).2 =
      (save_water_level_data db w true).2 ++ actions_for_water_level_data w none := by
    simp [process_dummy_water_level_data]
  have hg1 : countGate (actions_for_water_level_data w
      ((db.head?).map (fun p => p.nivel_estado))) = 1 := countGate_actions w _ h
  have hg2 : countGate (actions_for_water_level_data w none) = 1 := countGate_actions w none h
  have hn2 : countNotif (actions_for_water_level_data w none) = 1 := by
    rw [countNotif_actions]
    simp [h]
  refine ⟨?_, ?_, ?_⟩
  · rw [hp, hs]
    simp only [countGate, List.countP_append]
    rw [← countGate, ← countGate, hg1, hg2]
  · rw [hs, hg1]
  · rw [hp]
    simp only [countNotif, List.countP_append]
    rw [← countNotif, ← countNotif, hn2]
    omega

/-- C3 amended witness at the dummy BAJO reading. -/
theorem dummy_tick_actions_witness :
    countGate (process_dummy_water_level_data [] dummyBajo true).2 = 2 ∧
    countGate (save_water_level_data [] dummyBajo true).2 = 1 ∧
    1 ≤ countNotif (process_dummy_water_level_data [] dummyBajo true).2 :=
  dummy_tick_actions [] dummyBajo (Or.inl rfl)

/-- C4: for every reading and previous state, the actions step dispatches
an open-gate actuation (ABRIR, node status 1) exactly when the state is
BAJO or MUY_BAJO; otherwise it dispatches a close-gate actuation
(CERRAR, node status 0) exactly when the desnivel flag is false; in
every other combination it performs no action at all. -/
theorem actuation_rule (w : WaterData) (last : Option String) :
    ((Action.gateCommand "ABRIR" ∈ actions_for_water_level_data w last ∧
      Action.nodeStatus 1 ∈ actions_for_water_level_data w last) ↔
      (w.nivel_estado = "BAJO" ∨ w.nivel_estado = "MUY_BAJO")) ∧
    (¬(w.nivel_estado = "BAJO" ∨ w.nivel_estado = "MUY_BAJO") →
      ((Action.gateCommand "CERRAR" ∈ actions_for_water_level_data w last ∧
        Action.nodeStatus 0 ∈ actions_for_water_level_data w last) ↔
        w.desnivel = some false)) ∧
    (¬(w.nivel_estado = "BAJO" ∨ w.nivel_estado = "MUY_BAJO") → w.desnivel ≠ some false →
      actions_for_water_level_data w last = []) := by
  by_cases h1 : w.nivel_estado = "BAJO" ∨ w.nivel_estado = "MUY_BAJO"
  · rw [actions_open_eq w last h1]
    refine ⟨⟨fun _ => h1, fun _ => ?_⟩, fun hc => absurd h1 hc, fun hc => absurd h1 hc⟩
    constructor <;> split <;> simp
  · by_cases h2 : w.desnivel = some false
    · rw [actions_close_eq w last h1 h2]
      refine ⟨⟨fun hmem => ?_, fun hc => absurd hc h1⟩,
        fun _ => ⟨fun _ => h2, fun _ => ?_⟩, fun _ hc => absurd h2 hc⟩
      · exact absurd hmem.1 (by split <;> simp)
      · constructor <;> split <;> simp
    · rw [actions_skip_eq w last h1 h2]
      refine ⟨⟨fun hmem => ?_, fun hc => absurd hc h1⟩,
        fun _ => ⟨fun hmem => ?_, fun hc => absurd hc h2⟩, fun _ _ => rfl⟩
      · exact absurd hmem.1 (by simp)
      · exact absurd hmem.1 (by simp)

/-- C4 witness: the BAJO dummy reading produces the ABRIR dispatch. -/
theorem actuation_rule_witness :
    Action.gateCommand "ABRIR" ∈ actions_for_water_level_data dummyBajo none :=
  ((actuation_rule dummyBajo none).1.mpr (Or.inl rfl)).1

/-- C5 counterexample: a reading whose state (LLENO) differs from the
previous persisted state (NORMAL) is processed through the persistence
path with a successful insert, yet creates no notification, because it
takes neither actuation branch — the claim says a state transition
creates one. -/
theorem transition_without_notification :
    countNotif (save_water_level_data [prevNormal] readingLleno true).2 = 0 ∧
    readingLleno.nivel_estado ≠ prevNormal.nivel_estado := by
  decide

/-- C5 amended: through the persistence path, a reading whose state
equals the previous persisted state never creates a notification; a
reading that takes an actuation branch (state BAJO or MUY_BAJO, or
desnivel false) creates exactly one notification when its state differs
from the previous persisted state (or none exists); and a reading
outside both branches creates none, even on a state transition. -/
theorem notification_dedup (db : List WaterData) (w : WaterData) :
    ((db.head?).map (fun p => p.nivel_estado) = some w.nivel_estado →
      countNotif (save_water_level_data db w true).2 = 0) ∧
    ((w.nivel_estado = "BAJO" ∨ w.nivel_estado = "MUY_BAJO" ∨ w.desnivel = some false) →
      (db.head?).map (fun p => p.nivel_estado) ≠ some w.nivel_estado →
      countNotif (save_water_level_data db w true).2 = 1) ∧
    (¬(w.nivel_estado = "BAJO" ∨ w.nivel_estado = "MUY_BAJO" ∨ w.desnivel = some false) →
      countNotif (save_water_level_data db w true).2 = 0) := by
  have hs : (save_water_level_data db w true).2 =
      actions_for_water_level_data w ((db.head?).map (fun p => p.nivel_estado)) := by
    simp [save_water_level_data]
  rw [hs, countNotif_actions]
  refine ⟨fun heq => ?_, fun hb hne => ?_, fun hnb => ?_⟩
  · simp [heq]
  · simp [hb, hne]
  · simp [hnb]

/-- C5 amended witness: the first BAJO reading on an empty log creates
exactly one notification. -/
theorem notification_dedup_witness :
    countNotif (save_water_level_data [] dummyBajo true).2 = 1 :=
  (notification_dedup [] dummyBajo).2.1 (Or.inl rfl) (by simp)

/-- C7: for every positive tank height, the classification step computes
the percentage `100 - distancia / altura * 100`, and the percentage is
strictly decreasing in the distance. -/
theorem percentage_formula_monotone (h a n b d₁ d₂ : ℚ) (flag : Bool)
    (hpos : 0 < h) (hlt : d₁ < d₂) :
    (∃ s₁, determine_water_level_status (mkCfg h a n b) d₁ flag =
      Except.ok (s₁, 100 - d₁ / h * 100)) ∧
    (∃ s₂, determine_water_level_status (mkCfg h a n b) d₂ flag =
      Except.ok (s₂, 100 - d₂ / h * 100)) ∧
    100 - d₂ / h * 100 < 100 - d₁ / h * 100 := by
  refine ⟨determine_mkCfg_ok h a n b d₁ flag hpos.ne',
    determine_mkCfg_ok h a n b d₂ flag hpos.ne', ?_⟩
  rw [div_eq_mul_inv, div_eq_mul_inv]
  have hinv : 0 < h⁻¹ := inv_pos.mpr hpos
  nlinarith [mul_pos (mul_pos (sub_pos.mpr hlt) hinv) (by norm_num : (0:ℚ) < 100)]

/-- C7 witness: tank height 100, distances 10 < 20 give percentages
90 > 80. -/
theorem percentage_formula_monotone_witness :
    (∃ s₁, determine_water_level_status (mkCfg 100 80 50 20) 10 false =
      Except.ok (s₁, 100 - 10 / 100 * 100)) ∧
    (∃ s₂, determine_water_level_status (mkCfg 100 80 50 20) 20 false =
      Except.ok (s₂, 100 - 20 / 100 * 100)) ∧
    (100 : ℚ) - 20 / 100 * 100 < 100 - 10 / 100 * 100 :=
  percentage_formula_monotone 100 80 50 20 10 20 false (by norm_num) (by norm_num)

/-- C10: when the configured tank height is zero — in particular when
the configuration entry is absent, since the code defaults the missing
value to 0 — the classification step raises a division-by-zero error for
every payload; the water-level handler catches it, persists nothing, and
returns without propagating an exception.  When the tank height is
positive, the error branch is unreachable. -/
theorem division_by_zero_guard (cfg : String → Option ℚ) (db : List WaterData)
    (p : WaterPayload) (ok : Bool) :
    ((cfg "AlturaContenedor").getD 0 = 0 →
      determine_water_level_status cfg p.distancia p.desnivel = Except.error () ∧
      handle_water_level cfg db p ok = (db, [])) ∧
    (0 < (cfg "AlturaContenedor").getD 0 →
      ∃ r, determine_water_level_status cfg p.distancia p.desnivel = Except.ok r) := by
  constructor
  · intro hz
    have hdet : determine_water_level_status cfg p.distancia p.desnivel = Except.error () := by
      simp only [determine_water_level_status, getConfig]
      rw [if_pos hz]
    refine ⟨hdet, ?_⟩
    unfold handle_water_level
    rw [hdet]
  · intro hpos
    simp only [determine_water_level_status, getConfig]
    rw [if_neg hpos.ne']
    split
    · split
      · exact ⟨_, rfl⟩
      · split
        · exact ⟨_, rfl⟩
        · split
          · exact ⟨_, rfl⟩
          · exact ⟨_, rfl⟩
    · exact ⟨_, rfl⟩

/-- C10 witness: the zero-height configuration store makes the handler
drop the reading, while the height-100 store classifies it. -/
theorem division_by_zero_guard_witness :
    (determine_water_level_status zeroCfg 50 false = Except.error () ∧
      handle_water_level zeroCfg [] ⟨50, false, false, false⟩ true = ([], [])) ∧
    (∃ r, determine_water_level_status fixedCfg 50 false = Except.ok r) :=
  ⟨(division_by_zero_guard zeroCfg [] ⟨50, false, false, false⟩ true).1
      (by simp [zeroCfg, mkCfg]),
    (division_by_zero_guard fixedCfg [] ⟨50, false, false, false⟩ true).2
      (by norm_num [fixedCfg, mkCfg])⟩

/-- C8: in one poll cycle, for every device key present in both the
cached snapshot and the freshly polled statuses, exactly one state
change event is recorded when the polled value differs from the cached
one and zero events when it is unchanged, and in both cases the cache
entry afterward holds the freshly polled value. -/
theorem device_monitor_diff {V : Type} [DecidableEq V]
    (cache polled : List (String × V)) (k : String) (vold vnew : V)
    (hnodup : (polled.map Prod.fst).Nodup)
    (hpoll : lookupKey k polled = some vnew)
    (hcache : lookupKey k cache = some vold) :
    countEventsFor k (check_device_states cache polled).2 =
      (if vnew = vold then 0 else 1) ∧
    lookupKey k (check_device_states cache polled).1 = some vnew := by
  induction polled generalizing cache with
  | nil => simp [lookupKey] at hpoll
  | cons hd rest ih =>
    obtain ⟨k₀, v₀⟩ := hd
    simp only [List.map_cons, List.nodup_cons] at hnodup
    obtain ⟨hk₀, hrest⟩ := hnodup
    simp only [check_device_states]
    by_cases hk : k₀ = k
    · subst hk
      simp only [lookupKey, eq_self_iff_true, if_true, Option.some.injEq] at hpoll
      subst hpoll
      have hu := check_device_states_untouched rest (updateAssoc cache k₀ v₀) k₀ hk₀
      constructor
      · rw [countEventsFor_append, hu.2, hcache]
        by_cases hv : v₀ = vold
        · subst hv
          simp [countEventsFor]
        · simp [countEventsFor, hv, Ne.symm]
      · rw [hu.1, lookupKey_updateAssoc_self]
    · simp only [lookupKey, if_neg hk] at hpoll
      have hcache' : lookupKey k (updateAssoc cache k₀ v₀) = some vold := by
        rw [lookupKey_updateAssoc_other cache k₀ k v₀ (fun hc => hk hc.symm)]
        exact hcache
      have ihr := ih (updateAssoc cache k₀ v₀) hrest hpoll hcache'
      constructor
      · rw [countEventsFor_append, ihr.1]
        have hevs : countEventsFor k (match lookupKey k₀ cache with
            | some old => if v₀ ≠ old then [(⟨k₀, old, v₀⟩ : StateChangeEvent V)] else []
            | none => []) = 0 := by
          cases lookupKey k₀ cache with
          | none => rfl
          | some old =>
            split <;> simp [countEventsFor, hk]
        rw [hevs, Nat.zero_add]
      · exact ihr.2

/-- C8 witness: a concrete poll cycle over two cached devices, one of
which changed. -/
theorem device_monitor_diff_witness :
    countEventsFor "valves_valve1"
      (check_device_states [("valves_valve1", 0), ("relays_relay1", 1)]
        [("valves_valve1", 1), ("relays_relay1", 1)]).2 = 1 ∧
    lookupKey "valves_valve1"
      (check_device_states [("valves_valve1", 0), ("relays_relay1", 1)]
        [("valves_valve1", 1), ("relays_relay1", 1)]).1 = some 1 := by
  have hmain := device_monitor_diff
    [("valves_valve1", (0 : ℕ)), ("relays_relay1", 1)]
    [("valves_valve1", 1), ("relays_relay1", 1)]
    "valves_valve1" 0 1 (by decide) (by decide) (by decide)
  refine ⟨?_, hmain.2⟩
  rw [hmain.1]
  decide

/-- C9: `update_alert_thresholds` merges rather than replaces — every
key of the current threshold map that does not occur in the update map
keeps its exact entry (with its nested min, max and timeout values),
and every key of the update map ends up bound to its new entry. -/
theorem alert_thresholds_merge (current upd : List (String × AlertThreshold)) (k : String)
    (hnodup : (upd.map Prod.fst).Nodup) :
    (lookupKey k upd = none →
      lookupKey k (update_alert_thresholds current upd) = lookupKey k current) ∧
    (∀ v, lookupKey k upd = some v →
      lookupKey k (update_alert_thresholds current upd) = some v) := by
  constructor
  · intro hnone
    exact foldl_updateAssoc_not_mem upd current k hnone
  · intro v hsome
    exact foldl_updateAssoc_mem upd current k v hnodup hsome

/-- C9 witness: updating only the flow-sensor entry of the default
threshold map leaves the valve timeout entry untouched and installs the
new flow bounds. -/
theorem alert_thresholds_merge_witness :
    lookupKey "valve_status" (update_alert_thresholds default_alert_thresholds
      [("flow_sensor", { min := some 1, max := some 50, timeout_minutes := none })]) =
      lookupKey "valve_status" default_alert_thresholds ∧
    lookupKey "flow_sensor" (update_alert_thresholds default_alert_thresholds
      [("flow_sensor", { min := some 1, max := some 50, timeout_minutes := none })]) =
      some { min := some 1, max := some 50, timeout_minutes := none } :=
  ⟨(alert_thresholds_merge default_alert_thresholds
      [("flow_sensor", { min := some 1, max := some 50, timeout_minutes := none })]
      "valve_status" (by simp)).1 rfl,
    (alert_thresholds_merge default_alert_thresholds
      [("flow_sensor", { min := some 1, max := some 50, timeout_minutes := none })]
      "flow_sensor" (by simp)).2 _ rfl⟩

end AquaMind
